import Mathlib

/-!
Verification development for the supersonic media-provider aggregation layer.

Shallow embedding conventions, used throughout:
* a Go `string` is modelled as a list of characters (`GoStr`), so that every
  operation the code performs on strings is an executable list function;
* Go `int` / `int64` are modelled as unbounded `Int` (none of the modelled
  code paths can overflow a 64-bit integer on realistic media data), with
  Go's truncating integer division rendered as `Int.tdiv`; Go values that
  are used only as non-negative sizes/counts of in-memory lists are `Nat`;
* a Go slice is a `List`; where nil-ness of a slice is observable it is an
  `Option` of a list; a Go pointer argument is an `Option` of the record;
* a Go `(T, error)` return is `Except Err T`; a plain `error` return is
  `Option Err` (`none` = nil error);
* a Go nil-pointer dereference (a runtime panic) is an explicit
  `Except.error GoPanic.nilDeref` result;
* the fan-out/fan-in goroutine patterns (`sync.WaitGroup` with a final
  `wg.Wait()`) are join-synchronized: no result is read before every branch
  has finished, so each composite operation is a pure function of the
  outcomes of its backend sub-calls, which are passed in as oracles.
-/

/-- A Go string, as its list of characters. -/
abbrev GoStr := List Char

/-- A Go `error` value; only its identity matters to the modelled code. -/
abbrev Err := GoStr

/-- Go `strings.ToLower`. -/
def goToLower (s : GoStr) : GoStr := s.map Char.toLower

/-- Go `strings.Fields`: splits around runs of whitespace; no empty fields. -/
def goFields (s : GoStr) : List GoStr :=
  (List.splitOnP Char.isWhitespace s).filter (· ≠ [])

/-- Go `strings.Contains`: `sub` occurs contiguously inside `s`. -/
def goContains (s sub : GoStr) : Bool := decide (sub <:+: s)

/-! ## Domain model (backend/mediaprovider, src/unnamed/part_000)
Field defaults are the Go zero values, so a Go composite literal that omits
a field is translated by omitting it here as well. -/

/-- Go `mediaprovider.ContentType` (iota constants, Album = 0). -/
inductive ContentType
  | album
  | artist
  | track
  | playlist
  | genre
  deriving DecidableEq, Repr

/-- Go `mediaprovider.SearchResult`. `Type'` is the Go field `Type`
(a Lean keyword). -/
structure SearchResult where
  Name : GoStr := []
  ID : GoStr := []
  CoverID : GoStr := []
  Type' : ContentType := .album
  Size : Int := 0
  ArtistName : GoStr := []
  deriving DecidableEq, Repr

/-- Go `mediaprovider.Track`. -/
structure Track where
  ID : GoStr := []
  CoverArtID : GoStr := []
  ParentID : GoStr := []
  Name : GoStr := []
  Duration : Int := 0
  TrackNumber : Int := 0
  DiscNumber : Int := 0
  Genre : GoStr := []
  ArtistIDs : List GoStr := []
  ArtistNames : List GoStr := []
  Album : GoStr := []
  AlbumID : GoStr := []
  Year : Int := 0
  Rating : Int := 0
  Favorite : Bool := false
  Size : Int := 0
  PlayCount : Int := 0
  FilePath : GoStr := []
  BitRate : Int := 0
  deriving DecidableEq, Repr

/-- Go `mediaprovider.Album`. -/
structure Album where
  ID : GoStr := []
  CoverArtID : GoStr := []
  Name : GoStr := []
  Duration : Int := 0
  ArtistIDs : List GoStr := []
  ArtistNames : List GoStr := []
  Year : Int := 0
  Genres : List GoStr := []
  TrackCount : Int := 0
  Favorite : Bool := false
  deriving DecidableEq, Repr

/-- Go `mediaprovider.Artist`. -/
structure Artist where
  ID : GoStr := []
  CoverArtID : GoStr := []
  Name : GoStr := []
  Favorite : Bool := false
  AlbumCount : Int := 0
  deriving DecidableEq, Repr

/-- Go `mediaprovider.Genre`. -/
structure Genre where
  Name : GoStr := []
  AlbumCount : Int := 0
  TrackCount : Int := 0
  deriving DecidableEq, Repr

/-- Go `mediaprovider.Playlist`. -/
structure Playlist where
  ID : GoStr := []
  CoverArtID : GoStr := []
  Name : GoStr := []
  Description : GoStr := []
  Public : Bool := false
  Owner : GoStr := []
  Duration : Int := 0
  TrackCount : Int := 0
  deriving DecidableEq, Repr

/-- Go `mediaprovider.Favorites` (three independently populated lists). -/
structure Favorites where
  Albums : List Album := []
  Artists : List Artist := []
  Tracks : List Track := []
  deriving DecidableEq, Repr

/-! ## Subsonic wire records (go-subsonic), fields read by searchall.go -/

/-- go-subsonic `subsonic.IDName` (OpenSubsonic multi-valued artist ref). -/
structure SIDName where
  ID : GoStr := []
  Name : GoStr := []
  deriving DecidableEq, Repr

/-- go-subsonic album record (`AlbumID3`), fields used by mergeResults. -/
structure SAlbumID3 where
  ID : GoStr := []
  CoverArt : GoStr := []
  Name : GoStr := []
  Artist : GoStr := []
  Artists : List SIDName := []
  SongCount : Int := 0
  deriving DecidableEq, Repr

/-- go-subsonic artist record (`ArtistID3`), fields used by mergeResults. -/
structure SArtistID3 where
  ID : GoStr := []
  CoverArt : GoStr := []
  Name : GoStr := []
  AlbumCount : Int := 0
  deriving DecidableEq, Repr

/-- go-subsonic song record (`Child`), fields used by mergeResults. -/
structure SChild where
  ID : GoStr := []
  CoverArt : GoStr := []
  Title : GoStr := []
  Artist : GoStr := []
  Artists : List SIDName := []
  Duration : Int := 0
  deriving DecidableEq, Repr

/-- go-subsonic `subsonic.Playlist`, fields used by searchall.go. -/
structure SPlaylist where
  ID : GoStr := []
  CoverArt : GoStr := []
  Name : GoStr := []
  SongCount : Int := 0
  deriving DecidableEq, Repr

/-- go-subsonic `subsonic.Genre`, fields used by searchall.go. -/
structure SGenre where
  Name : GoStr := []
  AlbumCount : Int := 0
  deriving DecidableEq, Repr

/-- go-subsonic `subsonic.SearchResult3`: the combined search response. -/
structure SearchResult3 where
  Album : List SAlbumID3 := []
  Artist : List SArtistID3 := []
  Song : List SChild := []
  deriving DecidableEq, Repr

/-! ## searchall.go -/

/-- Go `getNameString`: select Subsonic single-valued name or join
OpenSubsonic multi-valued names with `", "`. -/
def getNameString (singleName : GoStr) (idNames : List SIDName) : GoStr :=
  if idNames.length = 0 then singleName
  else List.intercalate [',', ' '] (idNames.map SIDName.Name)

/-- Go `allTermsMatch`: name and terms should be pre-converted to the same
case; the loop returns false as soon as one term is not contained. -/
def allTermsMatch (name : GoStr) (terms : List GoStr) : Bool :=
  terms.all fun t => goContains name t

/-- Body of the first loop of Go `mergeResults` (album records). -/
def albumResult (al : SAlbumID3) : SearchResult :=
  { Type' := .album, ID := al.ID, CoverID := al.CoverArt, Name := al.Name,
    ArtistName := getNameString al.Artist al.Artists, Size := al.SongCount }

/-- Body of the second loop of Go `mergeResults` (artist records). -/
def artistResult (ar : SArtistID3) : SearchResult :=
  { Type' := .artist, ID := ar.ID, CoverID := ar.CoverArt, Name := ar.Name,
    Size := ar.AlbumCount }

/-- Body of the third loop of Go `mergeResults` (song records). -/
def trackResult (tr : SChild) : SearchResult :=
  { Type' := .track, ID := tr.ID, CoverID := tr.CoverArt, Name := tr.Title,
    ArtistName := getNameString tr.Artist tr.Artists, Size := tr.Duration }

/-- Body of the fourth loop of Go `mergeResults` (matching playlists). -/
def playlistResult (pl : SPlaylist) : SearchResult :=
  { Type' := .playlist, ID := pl.ID, CoverID := pl.CoverArt, Name := pl.Name,
    Size := pl.SongCount }

/-- Body of the fifth loop of Go `mergeResults` (matching genres). -/
def genreResult (g : SGenre) : SearchResult :=
  { Type' := .genre, ID := g.Name, Name := g.Name, Size := g.AlbumCount }

/-- Go `mergeResults`: five append loops over one shared `results` slice. -/
def mergeResults (searchResult : SearchResult3) (matchingPlaylists : List SPlaylist)
    (matchingGenres : List SGenre) : List SearchResult :=
  let results : List SearchResult := []
  let results := searchResult.Album.foldl (fun acc al => acc ++ [albumResult al]) results
  let results := searchResult.Artist.foldl (fun acc ar => acc ++ [artistResult ar]) results
  let results := searchResult.Song.foldl (fun acc tr => acc ++ [trackResult tr]) results
  let results := matchingPlaylists.foldl (fun acc pl => acc ++ [playlistResult pl]) results
  let results := matchingGenres.foldl (fun acc g => acc ++ [genreResult g]) results
  results

/-- The Subsonic client calls SearchAll issues, as oracles for one
invocation: `search3 count` is the outcome of `client.Search3(query,
artistCount=albumCount=songCount=count)`; the other two are the outcomes of
`client.GetPlaylists(nil)` and `client.GetGenres()`. -/
structure SubsonicClient where
  search3 : Nat → Except Err SearchResult3
  getPlaylists : Except Err (List SPlaylist)
  getGenres : Except Err (List SGenre)

/-- The playlist goroutine of Go `SearchAll`: on error the shared `playlists`
slice stays nil (empty); on success it is the filtered list. -/
def filterPlaylists (queryLowerWords : List GoStr) (res : Except Err (List SPlaylist)) :
    List SPlaylist :=
  match res with
  | .error _ => []
  | .ok p => p.filter fun pl => allTermsMatch (goToLower pl.Name) queryLowerWords

/-- The genre goroutine of Go `SearchAll`: on error the shared `genres`
slice stays nil (empty); on success it is the filtered list. -/
def filterGenres (queryLowerWords : List GoStr) (res : Except Err (List SGenre)) :
    List SGenre :=
  match res with
  | .error _ => []
  | .ok g => g.filter fun gn => allTermsMatch (goToLower gn.Name) queryLowerWords

/-- Go `SearchAll` (searchall.go). `maxResults` is a Go `int`, modelled as
`Nat`: the slice expression `results[:maxResults]` requires it non-negative.
The three goroutines are joined by `wg.Wait()` before any shared variable is
read; `err` is set only by the Search3 goroutine. The disabled `rankResults`
step is a no-op on the order. -/
def SearchAll (client : SubsonicClient) (searchQuery : GoStr) (maxResults : Nat) :
    Except Err (List SearchResult) :=
  let queryLowerWords := goFields (goToLower searchQuery)
  match client.search3 (maxResults / 3) with
  | .error e => .error e
  | .ok result =>
    let playlists := filterPlaylists queryLowerWords client.getPlaylists
    let genres := filterGenres queryLowerWords client.getGenres
    let results := mergeResults result playlists genres
    .ok (if maxResults < results.length then results.take maxResults else results)

/-! ## Jellyfin wire records (go-jellyfin), fields read by
jellyfinmediaprovider.go. Field defaults are the Go zero values. -/

/-- go-jellyfin `jellyfin.NameID` (genre listing entry). -/
structure JNameID where
  Name : GoStr := []
  ID : GoStr := []
  deriving DecidableEq, Repr

/-- An element of a go-jellyfin artist-reference list (`.ID` / `.Name`). -/
structure JArtistRef where
  ID : GoStr := []
  Name : GoStr := []
  deriving DecidableEq, Repr

/-- go-jellyfin per-user item data. -/
structure JUserData where
  Rating : Int := 0
  IsFavorite : Bool := false
  PlayCount : Int := 0
  deriving DecidableEq, Repr

/-- go-jellyfin image tags; only `Primary` is read. -/
structure JImageTags where
  Primary : GoStr := []
  deriving DecidableEq, Repr

/-- go-jellyfin media source entry, fields read by toTrack. -/
structure JMediaSource where
  Path : GoStr := []
  Size : Int := 0
  Bitrate : Int := 0
  deriving DecidableEq, Repr

/-- go-jellyfin `jellyfin.Song`, fields relevant to toTrack (`Genres` is
carried by the wire record but not read by the adapter). -/
structure JSong where
  Id : GoStr := []
  Name : GoStr := []
  Album : GoStr := []
  AlbumID : GoStr := []
  IndexNumber : Int := 0
  DiscNumber : Int := 0
  Genres : List GoStr := []
  Artists : List JArtistRef := []
  ProductionYear : Int := 0
  RunTimeTicks : Int := 0
  UserData : JUserData := {}
  ImageTags : JImageTags := {}
  MediaSources : List JMediaSource := []
  deriving DecidableEq, Repr

/-- go-jellyfin `jellyfin.Album`, fields read by fillAlbum. -/
structure JAlbum where
  ID : GoStr := []
  Name : GoStr := []
  Artists : List JArtistRef := []
  RunTimeTicks : Int := 0
  Year : Int := 0
  ChildCount : Int := 0
  Genres : List GoStr := []
  UserData : JUserData := {}
  Overview : GoStr := []
  deriving DecidableEq, Repr

/-- go-jellyfin `jellyfin.Artist`, fields read by fillArtist. -/
structure JArtist where
  ID : GoStr := []
  Name : GoStr := []
  AlbumCount : Int := 0
  UserData : JUserData := {}
  Overview : GoStr := []
  deriving DecidableEq, Repr

/-- go-jellyfin `jellyfin.Playlist`, fields read by fillPlaylist. -/
structure JPlaylist where
  ID : GoStr := []
  Name : GoStr := []
  Overview : GoStr := []
  SongCount : Int := 0
  RunTimeTicks : Int := 0
  deriving DecidableEq, Repr

/-! ## Record adapters (jellyfinmediaprovider.go)
The Go adapters take pointers; a nil pointer argument is `none`.
Dereferencing a nil pointer is a Go runtime panic, modelled as an explicit
`Except.error GoPanic.nilDeref` outcome. -/

/-- The observable failure of a Go nil-pointer dereference panic. -/
inductive GoPanic
  | nilDeref
  deriving DecidableEq, Repr

/-- The artist-reference flattening loop of toTrack and fillAlbum: one pass
over the backend's list, appending to the ID list and the name list
together. Returns (artistIDs, artistNames). -/
def artistLists (refs : List JArtistRef) : List GoStr × List GoStr :=
  refs.foldl (fun acc a => (acc.1 ++ [a.ID], acc.2 ++ [a.Name])) ([], [])

/-- Body of Go `toTrack` on a non-nil song record. The `Genre` assignment is
commented out in the source, so `Track.Genre` keeps its zero value. -/
def trackOf (ch : JSong) : Track :=
  let artistIDs := (artistLists ch.Artists).1
  let artistNames := (artistLists ch.Artists).2
  let coverArtID := ch.AlbumID
  let coverArtID := if ch.ImageTags.Primary ≠ [] then ch.Id else coverArtID
  let t : Track :=
    { ID := ch.Id
      CoverArtID := coverArtID
      ParentID := ch.AlbumID
      Name := ch.Name
      Duration := Int.tdiv ch.RunTimeTicks 10000000
      TrackNumber := ch.IndexNumber
      DiscNumber := ch.DiscNumber
      ArtistIDs := artistIDs
      ArtistNames := artistNames
      Album := ch.Album
      AlbumID := ch.AlbumID
      Year := ch.ProductionYear
      Rating := ch.UserData.Rating
      Favorite := ch.UserData.IsFavorite
      PlayCount := ch.UserData.PlayCount }
  match ch.MediaSources with
  | [] => t
  | m :: _ => { t with FilePath := m.Path, Size := m.Size, BitRate := Int.tdiv m.Bitrate 1000 }

/-- Go `toTrack (ch *jellyfin.Song) *mediaprovider.Track`: an explicit nil
check maps a nil record to a nil result. -/
def toTrack : Option JSong → Except GoPanic (Option Track)
  | none => .ok none
  | some ch => .ok (some (trackOf ch))

/-- Go `fillArtist` writing into a fresh `&mediaprovider.Artist{}`. -/
def fillArtist (a : JArtist) : Artist :=
  { AlbumCount := a.AlbumCount
    Favorite := a.UserData.IsFavorite
    ID := a.ID
    Name := a.Name
    CoverArtID := a.ID }

/-- Go `toArtist (a *jellyfin.Artist)`: no nil check — fillArtist reads
`a.AlbumCount`, so a nil input dereferences nil and panics. -/
def toArtist : Option JArtist → Except GoPanic Artist
  | none => .error .nilDeref
  | some a => .ok (fillArtist a)

/-- Go `fillAlbum` writing into a fresh `&mediaprovider.Album{}`. -/
def fillAlbum (a : JAlbum) : Album :=
  let artistIDs := (artistLists a.Artists).1
  let artistNames := (artistLists a.Artists).2
  { ID := a.ID
    CoverArtID := a.ID
    Name := a.Name
    Duration := Int.tdiv a.RunTimeTicks 10000000
    ArtistIDs := artistIDs
    ArtistNames := artistNames
    Year := a.Year
    TrackCount := a.ChildCount
    Genres := a.Genres
    Favorite := a.UserData.IsFavorite }

/-- Go `toAlbum (a *jellyfin.Album)`: no nil check — fillAlbum ranges over
`a.Artists`, so a nil input dereferences nil and panics. -/
def toAlbum : Option JAlbum → Except GoPanic Album
  | none => .error .nilDeref
  | some a => .ok (fillAlbum a)

/-- Go `fillPlaylist`; `loggedInUser` is `j.client.LoggedInUser()`. Jellyfin
has no public playlists, so `Public` is the fixed constant `false`. -/
def fillPlaylist (loggedInUser : GoStr) (p : JPlaylist) : Playlist :=
  { Name := p.Name
    ID := p.ID
    CoverArtID := p.ID
    Description := p.Overview
    TrackCount := p.SongCount
    Duration := Int.tdiv p.RunTimeTicks 1000000
    Owner := loggedInUser
    Public := false }

/-- Go `toPlaylist (p *jellyfin.Playlist)`: no nil check — fillPlaylist reads
`p.Name`, so a nil input dereferences nil and panics. -/
def toPlaylist (loggedInUser : GoStr) : Option JPlaylist → Except GoPanic Playlist
  | none => .error .nilDeref
  | some p => .ok (fillPlaylist loggedInUser p)

/-! ## GetFavorites (jellyfinmediaprovider.go) -/

/-- The album goroutine of Go `GetFavorites`: assigns `favorites.Albums`
only when the favorite-filtered album query returned no error and a
non-empty list. The client hands the adapters non-nil records, so
`MapSlice(al, toAlbum)` is `List.map fillAlbum`. -/
def favAlbumsStep (res : Except Err (List JAlbum)) (favorites : Favorites) : Favorites :=
  match res with
  | .ok al => if 0 < al.length then { favorites with Albums := al.map fillAlbum } else favorites
  | .error _ => favorites

/-- The artist goroutine of Go `GetFavorites` (favorite-filtered
`GetAlbumArtists`). -/
def favArtistsStep (res : Except Err (List JArtist)) (favorites : Favorites) : Favorites :=
  match res with
  | .ok ar => if 0 < ar.length then { favorites with Artists := ar.map fillArtist } else favorites
  | .error _ => favorites

/-- The track goroutine of Go `GetFavorites` (favorite-filtered `GetSongs`). -/
def favTracksStep (res : Except Err (List JSong)) (favorites : Favorites) : Favorites :=
  match res with
  | .ok tr => if 0 < tr.length then { favorites with Tracks := tr.map trackOf } else favorites
  | .error _ => favorites

/-- Go `GetFavorites`: three concurrent favorite-filtered queries touch
disjoint fields of the shared `favorites` aggregate and are joined by
`wg.Wait()`; the function then returns `(favorites, nil)` unconditionally.
The three oracle arguments are the outcomes of the three backend queries. -/
def GetFavorites (albumsRes : Except Err (List JAlbum))
    (artistsRes : Except Err (List JArtist))
    (songsRes : Except Err (List JSong)) : Except Err Favorites :=
  let favorites : Favorites := {}
  let favorites := favAlbumsStep albumsRes favorites
  let favorites := favArtistsStep artistsRes favorites
  let favorites := favTracksStep songsRes favorites
  .ok favorites

/-! ## GetGenres and the genre cache (jellyfinmediaprovider.go) -/

/-- Go `cacheValidDurationSeconds`. -/
def cacheValidDurationSeconds : Int := 60

/-- The provider's mutable genre-cache fields. The Go zero values are a nil
slice and timestamp 0. -/
structure GenreCacheState where
  genresCached : Option (List Genre) := none
  genresCachedAt : Int := 0
  deriving DecidableEq, Repr

/-- Cache state of a freshly constructed provider
(`newJellyfinMediaProvider`): `genresCached` is a non-nil empty slice,
`genresCachedAt` is 0. -/
def initGenreCacheState : GenreCacheState := { genresCached := some [], genresCachedAt := 0 }

/-- The genre mapping inside Go `GetGenres`: Jellyfin cannot report album
and track counts, so both carry the sentinel -1. -/
def jGenreOf (g : JNameID) : Genre :=
  { Name := g.Name, AlbumCount := -1, TrackCount := -1 }

/-- Go `GetGenres`. `now` is the Unix time read by the cache-validity check
(first `time.Now()`); `now2` is the Unix time written into
`genresCachedAt` after a successful fetch (second `time.Now()`);
`fetchRes` is the outcome of `client.GetGenres(jellyfin.Paging{})`.
Returns the call's result and the provider's new cache state. -/
def GetGenres (st : GenreCacheState) (now now2 : Int)
    (fetchRes : Except Err (List JNameID)) :
    Except Err (List Genre) × GenreCacheState :=
  if h : st.genresCached.isSome ∧ now - st.genresCachedAt < cacheValidDurationSeconds then
    (.ok (st.genresCached.get h.1), st)
  else
    match fetchRes with
    | .error e => (.error e, st)
    | .ok g =>
      let list := g.map jGenreOf
      (.ok list, { genresCached := some list, genresCachedAt := now2 })

/-! ## SetFavorite (jellyfinmediaprovider.go) -/

/-- Go `mediaprovider.RatingFavoriteParameters` (the fields SetFavorite
reads). -/
structure RatingFavoriteParameters where
  AlbumIDs : List GoStr := []
  ArtistIDs : List GoStr := []
  TrackIDs : List GoStr := []
  deriving DecidableEq, Repr

/-- Go `batchSize` in SetFavorite. -/
def batchSize : Nat := 5

/-- Observable state of one SetFavorite invocation: the ids issued to
`client.SetFavorite` grouped per batch (in batch order), and the shared
`err` variable. -/
structure SetFavState where
  batches : List (List GoStr) := []
  err : Option Err := none
  deriving DecidableEq, Repr

/-- The shared-`err` update of one `client.SetFavorite` goroutine:
`if err == nil && newErr != nil { err = newErr }`. -/
def setFavErrStep (setFav : GoStr → Option Err) (err : Option Err) (id : GoStr) : Option Err :=
  let newErr := setFav id
  if err = none ∧ newErr ≠ none then newErr else err

/-- Go `batchSetFavorite(offs, wg)`: launches one goroutine per id at
indices `offs ≤ idx < min (offs+batchSize) allIDs.length` (the loop
`for i := 0; i < batchSize && offs+i < len(allIDs)`), then `wg.Wait()`
joins them. `setFav id` is the backend outcome for `id`; launch order
stands in for the unsynchronized completion order inside the batch. -/
def batchSetFavorite (setFav : GoStr → Option Err) (allIDs : List GoStr) (offs : Nat)
    (st : SetFavState) : SetFavState :=
  let ids := (allIDs.drop offs).take batchSize
  { batches := st.batches ++ [ids]
    err := ids.foldl (setFavErrStep setFav) st.err }

/-- Go `SetFavorite`: album, artist and track ids concatenated in that
order, then `numBatches = int(math.Ceil(float64(len(allIDs)) /
float64(batchSize)))` batches, processed strictly sequentially
(`wg.Wait()` between batches). `(n + batchSize - 1) / batchSize` is that
ceiling exactly for every list length below 2^53 (float64 is exact there).
The Go function returns only `err`; the returned state also carries the
per-batch call trace. -/
def SetFavorite (setFav : GoStr → Option Err) (params : RatingFavoriteParameters) :
    SetFavState :=
  let allIDs := params.AlbumIDs ++ params.ArtistIDs ++ params.TrackIDs
  let numBatches := (allIDs.length + (batchSize - 1)) / batchSize
  (List.range numBatches).foldl
    (fun st i => batchSetFavorite setFav allIDs (i * batchSize) st) {}

/-! ## General lemmas -/

theorem foldl_append_map {α β : Type} (f : α → β) (l : List α) (acc : List β) :
    l.foldl (fun acc a => acc ++ [f a]) acc = acc ++ l.map f := by
  induction l generalizing acc with
  | nil => simp
  | cons a l ih => simp [ih]

theorem mergeResults_eq (r : SearchResult3) (pls : List SPlaylist) (gs : List SGenre) :
    mergeResults r pls gs =
      r.Album.map albumResult ++ r.Artist.map artistResult ++ r.Song.map trackResult
        ++ pls.map playlistResult ++ gs.map genreResult := by
  simp [mergeResults, foldl_append_map]

theorem take_if_eq_take {α : Type} (l : List α) (m : Nat) :
    (if m < l.length then l.take m else l) = l.take m := by
  split
  · rfl
  · exact (List.take_of_length_le (by omega)).symm

/-- The successful-primary case of SearchAll, written as one equation. -/
theorem searchAll_ok (client : SubsonicClient) (q : GoStr) (m : Nat) (r3 : SearchResult3)
    (h : client.search3 (m / 3) = .ok r3) :
    SearchAll client q m = .ok ((mergeResults r3
      (filterPlaylists (goFields (goToLower q)) client.getPlaylists)
      (filterGenres (goFields (goToLower q)) client.getGenres)).take m) := by
  unfold SearchAll
  rw [h]
  dsimp only
  rw [take_if_eq_take]

/-! ## Claim theorems: SearchAll -/

/-- C1: when the primary combined artist/album/track sub-query of SearchAll
returns an error, SearchAll returns that error (whatever the playlist and
genre sub-queries did); when the primary sub-query succeeds and the playlist
(resp. genre) sub-query fails, SearchAll returns a non-error result list in
which no entry is of playlist (resp. genre) type. -/
theorem C1_searchAll_error_policy (client : SubsonicClient) (q : GoStr) (m : Nat) :
    (∀ e, client.search3 (m / 3) = .error e → SearchAll client q m = .error e)
    ∧ (∀ r3 e, client.search3 (m / 3) = .ok r3 → client.getPlaylists = .error e →
        ∃ l, SearchAll client q m = .ok l ∧ ∀ r ∈ l, r.Type' ≠ ContentType.playlist)
    ∧ (∀ r3 e, client.search3 (m / 3) = .ok r3 → client.getGenres = .error e →
        ∃ l, SearchAll client q m = .ok l ∧ ∀ r ∈ l, r.Type' ≠ ContentType.genre) := by
  refine ⟨?_, ?_, ?_⟩
  · intro e he
    unfold SearchAll
    rw [he]
  · intro r3 e h3 hp
    refine ⟨_, searchAll_ok client q m r3 h3, ?_⟩
    intro r hr
    have hr' := List.take_subset _ _ hr
    rw [mergeResults_eq] at hr'
    rw [show filterPlaylists (goFields (goToLower q)) client.getPlaylists = [] from
      by rw [hp]; rfl] at hr'
    simp only [List.map_nil, List.append_nil, List.mem_append, List.mem_map] at hr'
    rcases hr' with (((h | h) | h) | h) <;> obtain ⟨x, -, rfl⟩ := h <;>
      simp [albumResult, artistResult, trackResult, genreResult]
  · intro r3 e h3 hg
    refine ⟨_, searchAll_ok client q m r3 h3, ?_⟩
    intro r hr
    have hr' := List.take_subset _ _ hr
    rw [mergeResults_eq] at hr'
    rw [show filterGenres (goFields (goToLower q)) client.getGenres = [] from
      by rw [hg]; rfl] at hr'
    simp only [List.map_nil, List.append_nil, List.mem_append, List.mem_map] at hr'
    rcases hr' with (((h | h) | h) | h) <;> obtain ⟨x, -, rfl⟩ := h <;>
      simp [albumResult, artistResult, trackResult, playlistResult]

/-- C5: on a successful call, SearchAll reads the primary search outcome at
per-category count maxResults / 3 (integer division), and returns the albums,
then artists, then tracks (in backend response order), then the matching
playlists, then the matching genres, truncated to at most maxResults
entries. -/
theorem C5_searchAll_merge_order (client : SubsonicClient) (q : GoStr) (m : Nat)
    (r3 : SearchResult3) (h3 : client.search3 (m / 3) = .ok r3) :
    SearchAll client q m = .ok ((r3.Album.map albumResult ++ r3.Artist.map artistResult
        ++ r3.Song.map trackResult
        ++ (filterPlaylists (goFields (goToLower q)) client.getPlaylists).map playlistResult
        ++ (filterGenres (goFields (goToLower q)) client.getGenres).map genreResult).take m)
      ∧ ∀ l, SearchAll client q m = .ok l → l.length ≤ m := by
  constructor
  · rw [searchAll_ok client q m r3 h3, mergeResults_eq]
  · intro l hl
    rw [searchAll_ok client q m r3 h3] at hl
    injection hl with hl
    rw [← hl]
    exact List.length_take_le m _

/-- C6: a playlist or genre candidate passes SearchAll's client-side filter
iff every whitespace-separated term of the lowercased query is a contiguous
substring of the lowercased candidate name (conjunctive, order-independent
term matching); in particular a candidate whose name contains none of the
terms, when a term exists, is excluded. -/
theorem C6_searchAll_filter_semantics (q : GoStr) (pls : List SPlaylist) (gs : List SGenre)
    (pl : SPlaylist) (g : SGenre) :
    (pl ∈ filterPlaylists (goFields (goToLower q)) (.ok pls) ↔
      pl ∈ pls ∧ ∀ t ∈ goFields (goToLower q), t <:+: goToLower pl.Name)
    ∧ (g ∈ filterGenres (goFields (goToLower q)) (.ok gs) ↔
      g ∈ gs ∧ ∀ t ∈ goFields (goToLower q), t <:+: goToLower g.Name) := by
  constructor <;>
    simp [filterPlaylists, filterGenres, List.mem_filter, allTermsMatch, goContains,
      List.all_eq_true]

/-! ## Concrete sample data for witness instantiations -/

def sampleAlbumS : SAlbumID3 := { ID := ['a', 'l'], Name := ['A'] }

def sampleArtistS : SArtistID3 := { ID := ['a', 'r'], Name := ['R'] }

def sampleSongS : SChild := { ID := ['s'], Title := ['S'] }

def sampleR3 : SearchResult3 :=
  { Album := [sampleAlbumS], Artist := [sampleArtistS], Song := [sampleSongS] }

def samplePlaylistS : SPlaylist := { ID := ['p'], Name := ['f', 'o', 'o'] }

def sampleGenreS : SGenre := { Name := ['r', 'o', 'c', 'k'] }

def sampleErr : Err := ['b', 'o', 'o', 'm']

def sampleClientOk : SubsonicClient :=
  { search3 := fun _ => .ok sampleR3
    getPlaylists := .ok [samplePlaylistS]
    getGenres := .ok [sampleGenreS] }

/-- C1 witness: the three error-policy clauses at concrete clients. -/
theorem C1_searchAll_error_policy_witness :
    SearchAll { sampleClientOk with search3 := fun _ => .error sampleErr } ['o'] 9
        = .error sampleErr
    ∧ (∃ l, SearchAll { sampleClientOk with getPlaylists := .error sampleErr } ['o'] 9
        = .ok l ∧ ∀ r ∈ l, r.Type' ≠ ContentType.playlist)
    ∧ (∃ l, SearchAll { sampleClientOk with getGenres := .error sampleErr } ['o'] 9
        = .ok l ∧ ∀ r ∈ l, r.Type' ≠ ContentType.genre) :=
  ⟨(C1_searchAll_error_policy _ ['o'] 9).1 sampleErr rfl,
    (C1_searchAll_error_policy _ ['o'] 9).2.1 sampleR3 sampleErr rfl rfl,
    (C1_searchAll_error_policy _ ['o'] 9).2.2 sampleR3 sampleErr rfl rfl⟩

/-- C5 witness: the merge-order equation at a concrete client, query and
maxResults (merged length 5, truncated to 4). -/
theorem C5_searchAll_merge_order_witness :
    SearchAll sampleClientOk ['o'] 4 = .ok ((sampleR3.Album.map albumResult
        ++ sampleR3.Artist.map artistResult ++ sampleR3.Song.map trackResult
        ++ (filterPlaylists (goFields (goToLower ['o'])) sampleClientOk.getPlaylists).map
            playlistResult
        ++ (filterGenres (goFields (goToLower ['o'])) sampleClientOk.getGenres).map
            genreResult).take 4)
      ∧ ∀ l, SearchAll sampleClientOk ['o'] 4 = .ok l → l.length ≤ 4 :=
  C5_searchAll_merge_order sampleClientOk ['o'] 4 sampleR3 rfl

/-! ## GetFavorites lemmas -/

theorem favAlbumsStep_Artists (res : Except Err (List JAlbum)) (f : Favorites) :
    (favAlbumsStep res f).Artists = f.Artists := by
  cases res with
  | error e => rfl
  | ok al =>
    simp only [favAlbumsStep]
    split <;> rfl

theorem favAlbumsStep_Tracks (res : Except Err (List JAlbum)) (f : Favorites) :
    (favAlbumsStep res f).Tracks = f.Tracks := by
  cases res with
  | error e => rfl
  | ok al =>
    simp only [favAlbumsStep]
    split <;> rfl

theorem favArtistsStep_Albums (res : Except Err (List JArtist)) (f : Favorites) :
    (favArtistsStep res f).Albums = f.Albums := by
  cases res with
  | error e => rfl
  | ok ar =>
    simp only [favArtistsStep]
    split <;> rfl

theorem favArtistsStep_Tracks (res : Except Err (List JArtist)) (f : Favorites) :
    (favArtistsStep res f).Tracks = f.Tracks := by
  cases res with
  | error e => rfl
  | ok ar =>
    simp only [favArtistsStep]
    split <;> rfl

theorem favTracksStep_Albums (res : Except Err (List JSong)) (f : Favorites) :
    (favTracksStep res f).Albums = f.Albums := by
  cases res with
  | error e => rfl
  | ok tr =>
    simp only [favTracksStep]
    split <;> rfl

theorem favTracksStep_Artists (res : Except Err (List JSong)) (f : Favorites) :
    (favTracksStep res f).Artists = f.Artists := by
  cases res with
  | error e => rfl
  | ok tr =>
    simp only [favTracksStep]
    split <;> rfl

theorem favAlbumsStep_ok_Albums (al : List JAlbum) (f : Favorites) (h : f.Albums = []) :
    (favAlbumsStep (.ok al) f).Albums = al.map fillAlbum := by
  simp only [favAlbumsStep]
  split
  · rfl
  · rename_i hlen
    have : al = [] := by
      cases al with
      | nil => rfl
      | cons x xs => simp at hlen
    subst this
    simpa using h

theorem favArtistsStep_ok_Artists (ar : List JArtist) (f : Favorites) (h : f.Artists = []) :
    (favArtistsStep (.ok ar) f).Artists = ar.map fillArtist := by
  simp only [favArtistsStep]
  split
  · rfl
  · rename_i hlen
    have : ar = [] := by
      cases ar with
      | nil => rfl
      | cons x xs => simp at hlen
    subst this
    simpa using h

theorem favTracksStep_ok_Tracks (tr : List JSong) (f : Favorites) (h : f.Tracks = []) :
    (favTracksStep (.ok tr) f).Tracks = tr.map trackOf := by
  simp only [favTracksStep]
  split
  · rfl
  · rename_i hlen
    have : tr = [] := by
      cases tr with
      | nil => rfl
      | cons x xs => simp at hlen
    subst this
    simpa using h

/-! ## Claim theorems: GetFavorites and GetGenres -/

/-- C3: GetFavorites always returns a non-error aggregate; a category whose
sub-query failed contributes the empty list, while every category whose
sub-query succeeded is populated from that sub-query's records. -/
theorem C3_getFavorites_best_effort (albumsRes : Except Err (List JAlbum))
    (artistsRes : Except Err (List JArtist)) (songsRes : Except Err (List JSong)) :
    ∃ f, GetFavorites albumsRes artistsRes songsRes = .ok f
      ∧ (∀ e, albumsRes = .error e → f.Albums = [])
      ∧ (∀ al, albumsRes = .ok al → f.Albums = al.map fillAlbum)
      ∧ (∀ e, artistsRes = .error e → f.Artists = [])
      ∧ (∀ ar, artistsRes = .ok ar → f.Artists = ar.map fillArtist)
      ∧ (∀ e, songsRes = .error e → f.Tracks = [])
      ∧ (∀ tr, songsRes = .ok tr → f.Tracks = tr.map trackOf) := by
  refine ⟨_, rfl, ?_, ?_, ?_, ?_, ?_, ?_⟩
  · intro e he
    subst he
    rw [favTracksStep_Albums, favArtistsStep_Albums]
    rfl
  · intro al hal
    subst hal
    rw [favTracksStep_Albums, favArtistsStep_Albums]
    exact favAlbumsStep_ok_Albums al {} rfl
  · intro e he
    subst he
    rw [favTracksStep_Artists]
    show (favAlbumsStep albumsRes {}).Artists = []
    rw [favAlbumsStep_Artists]
  · intro ar har
    subst har
    rw [favTracksStep_Artists]
    exact favArtistsStep_ok_Artists ar _ ((favAlbumsStep_Artists _ _).trans rfl)
  · intro e he
    subst he
    show (favArtistsStep artistsRes (favAlbumsStep albumsRes {})).Tracks = []
    rw [favArtistsStep_Tracks, favAlbumsStep_Tracks]
  · intro tr htr
    subst htr
    exact favTracksStep_ok_Tracks tr _
      ((favArtistsStep_Tracks _ _).trans ((favAlbumsStep_Tracks _ _).trans rfl))

/-- C4: while the cache is non-nil and within 60 seconds of the cache
timestamp, GetGenres returns the cached list, leaves the state unchanged
and never consults the backend (its result does not depend on the fetch
outcome); with a nil cache or an expired window it fetches: a successful
fetch returns the mapped fresh list and replaces both the cached list and
the timestamp, a failed fetch returns the error and leaves cache and
timestamp untouched. -/
theorem C4_getGenres_cache (st : GenreCacheState) (now now2 : Int)
    (fetchRes : Except Err (List JNameID)) :
    cacheValidDurationSeconds = 60
    ∧ (∀ cached, st.genresCached = some cached → now - st.genresCachedAt < 60 →
        GetGenres st now now2 fetchRes = (.ok cached, st))
    ∧ (st.genresCached = none ∨ 60 ≤ now - st.genresCachedAt →
        (∀ g, fetchRes = .ok g → GetGenres st now now2 fetchRes =
          (.ok (g.map jGenreOf),
            { genresCached := some (g.map jGenreOf), genresCachedAt := now2 }))
        ∧ (∀ e, fetchRes = .error e → GetGenres st now now2 fetchRes = (.error e, st))) := by
  refine ⟨rfl, ?_, ?_⟩
  · intro cached hc hlt
    simp [GetGenres, hc, cacheValidDurationSeconds, hlt]
  · intro hexp
    have hcond : ¬(st.genresCached.isSome
        ∧ now - st.genresCachedAt < cacheValidDurationSeconds) := by
      rcases hexp with h | h
      · simp [h]
      · intro hc
        have := hc.2
        simp [cacheValidDurationSeconds] at this
        omega
    constructor
    · intro g hg
      subst hg
      simp [GetGenres, hcond]
    · intro e he
      subst he
      simp [GetGenres, hcond]

/-! ## Jellyfin sample records for witness instantiations -/

def sampleJArtistRef : JArtistRef := { ID := ['i', '1'], Name := ['n', '1'] }

def sampleJSong : JSong :=
  { Id := ['t', '1'], Name := ['T'], Artists := [sampleJArtistRef],
    Genres := [['r', 'o', 'c', 'k']], RunTimeTicks := 1234500000 }

def sampleJAlbum : JAlbum :=
  { ID := ['a', '1'], Name := ['A'], Artists := [sampleJArtistRef],
    RunTimeTicks := 1234500000 }

def sampleJArtist : JArtist := { ID := ['r', '1'], Name := ['R'], AlbumCount := 2 }

def sampleJPlaylist : JPlaylist :=
  { ID := ['p', '1'], Name := ['P'], SongCount := 3, RunTimeTicks := 1234500000 }

def sampleJGenre : JNameID := { Name := ['j', 'a', 'z', 'z'] }

/-- C3 witness: albums and tracks succeed, the artist sub-query fails; the
call still returns non-error with the failed category empty. -/
theorem C3_getFavorites_best_effort_witness :
    ∃ f, GetFavorites (.ok [sampleJAlbum]) (.error sampleErr) (.ok [sampleJSong]) = .ok f
      ∧ f.Albums = [fillAlbum sampleJAlbum]
      ∧ f.Artists = []
      ∧ f.Tracks = [trackOf sampleJSong] := by
  obtain ⟨f, hf, -, hal, har, -, -, htr⟩ :=
    C3_getFavorites_best_effort (.ok [sampleJAlbum]) (.error sampleErr) (.ok [sampleJSong])
  exact ⟨f, hf, (hal [sampleJAlbum] rfl).trans (by simp), har sampleErr rfl,
    (htr [sampleJSong] rfl).trans (by simp)⟩

/-- C4 witness: a cache hit 30 seconds after the timestamp (independent of
the fetch outcome), a successful refresh 90 seconds after the timestamp,
and a failed refresh that leaves the state unchanged. -/
theorem C4_getGenres_cache_witness :
    GetGenres { genresCached := some [jGenreOf sampleJGenre], genresCachedAt := 100 }
        130 131 (.error sampleErr)
      = (.ok [jGenreOf sampleJGenre],
          { genresCached := some [jGenreOf sampleJGenre], genresCachedAt := 100 })
    ∧ GetGenres { genresCached := some [], genresCachedAt := 100 } 190 191
        (.ok [sampleJGenre])
      = (.ok [jGenreOf sampleJGenre],
          { genresCached := some [jGenreOf sampleJGenre], genresCachedAt := 191 })
    ∧ GetGenres { genresCached := some [], genresCachedAt := 100 } 190 191
        (.error sampleErr)
      = (.error sampleErr, { genresCached := some [], genresCachedAt := 100 }) := by
  refine ⟨(C4_getGenres_cache _ 130 131 _).2.1 [jGenreOf sampleJGenre] rfl (by decide), ?_, ?_⟩
  · have h := ((C4_getGenres_cache { genresCached := some [], genresCachedAt := 100 } 190 191
      (.ok [sampleJGenre])).2.2 (Or.inr (by decide))).1 [sampleJGenre] rfl
    simpa using h
  · exact ((C4_getGenres_cache { genresCached := some [], genresCachedAt := 100 } 190 191
      (.error sampleErr)).2.2 (Or.inr (by decide))).2 sampleErr rfl

/-! ## SetFavorite lemmas -/

/-- Folding the shared-err update over a list of ids keeps an already
recorded error and otherwise picks the first error the backend reports. -/
theorem foldl_setFavErrStep (setFav : GoStr → Option Err) (ids : List GoStr)
    (e : Option Err) :
    ids.foldl (setFavErrStep setFav) e = e.or (ids.findSome? setFav) := by
  induction ids generalizing e with
  | nil => simp
  | cons id ids ih =>
    rw [List.foldl_cons, ih]
    cases e with
    | some v => simp [setFavErrStep]
    | none =>
      cases h : setFav id with
      | some v => simp [setFavErrStep, h, List.findSome?_cons]
      | none => simp [setFavErrStep, h, List.findSome?_cons]

/-- The chunks SetFavorite's batches process, concatenated in batch order,
are a prefix of the id list. -/
theorem flatten_chunks {α : Type} (l : List α) (k : Nat) :
    ((List.range k).map fun i => (l.drop (i * batchSize)).take batchSize).flatten
      = l.take (k * batchSize) := by
  induction k with
  | zero => rfl
  | succ k ih =>
    rw [List.range_succ, List.map_append, List.flatten_append, ih]
    simp [Nat.succ_mul, List.take_add]

/-- Closed form of SetFavorite's sequential batch loop after k batches. -/
theorem setFavorite_loop (setFav : GoStr → Option Err) (allIDs : List GoStr) (k : Nat) :
    (List.range k).foldl
        (fun st i => batchSetFavorite setFav allIDs (i * batchSize) st) {} =
      { batches := (List.range k).map fun i => (allIDs.drop (i * batchSize)).take batchSize
        err := (allIDs.take (k * batchSize)).findSome? setFav } := by
  induction k with
  | zero => rfl
  | succ k ih =>
    rw [List.range_succ, List.foldl_append, ih, List.foldl_cons, List.foldl_nil]
    simp only [batchSetFavorite, foldl_setFavErrStep]
    rw [List.map_append,
      show (k + 1) * batchSize = k * batchSize + batchSize from by ring,
      List.take_add, List.findSome?_append]
    simp

/-! ## Claim theorems: SetFavorite -/

/-- C2: SetFavorite concatenates the album, artist and track ids in that
order and processes them in exactly ceil(N/5) sequential batches of at most
5 backend calls each; the per-batch call traces concatenate to exactly the
full id list (every id attempted exactly once, also after an error), and
the shared error is the first backend error in launch order — in
particular it comes from the lowest errored batch, and later errors are
dropped; it is only returned once every batch has run. -/
theorem C2_setFavorite_batches (setFav : GoStr → Option Err)
    (params : RatingFavoriteParameters) :
    (SetFavorite setFav params).batches.flatten
        = params.AlbumIDs ++ params.ArtistIDs ++ params.TrackIDs
    ∧ (SetFavorite setFav params).batches.length * 5
        < (params.AlbumIDs ++ params.ArtistIDs ++ params.TrackIDs).length + 5
    ∧ (params.AlbumIDs ++ params.ArtistIDs ++ params.TrackIDs).length
        ≤ (SetFavorite setFav params).batches.length * 5
    ∧ (∀ b ∈ (SetFavorite setFav params).batches, b.length ≤ 5)
    ∧ (SetFavorite setFav params).err
        = (params.AlbumIDs ++ params.ArtistIDs ++ params.TrackIDs).findSome? setFav := by
  have hsf : SetFavorite setFav params =
      { batches := (List.range (((params.AlbumIDs ++ params.ArtistIDs
            ++ params.TrackIDs).length + (batchSize - 1)) / batchSize)).map fun i =>
          (((params.AlbumIDs ++ params.ArtistIDs ++ params.TrackIDs).drop
            (i * batchSize)).take batchSize)
        err := (((params.AlbumIDs ++ params.ArtistIDs ++ params.TrackIDs).take
          ((((params.AlbumIDs ++ params.ArtistIDs ++ params.TrackIDs).length
            + (batchSize - 1)) / batchSize) * batchSize))).findSome? setFav } := by
    unfold SetFavorite
    exact setFavorite_loop setFav _ _
  set allIDs := params.AlbumIDs ++ params.ArtistIDs ++ params.TrackIDs with hall
  have htake : allIDs.take
      ((allIDs.length + (batchSize - 1)) / batchSize * batchSize) = allIDs := by
    apply List.take_of_length_le
    show allIDs.length ≤ (allIDs.length + (5 - 1)) / 5 * 5
    omega
  refine ⟨?_, ?_, ?_, ?_, ?_⟩
  · rw [hsf]
    show ((List.range _).map fun i => (allIDs.drop (i * batchSize)).take batchSize).flatten
      = allIDs
    rw [flatten_chunks, htake]
  · rw [hsf]
    simp only [List.length_map, List.length_range]
    show (allIDs.length + (5 - 1)) / 5 * 5 < allIDs.length + 5
    omega
  · rw [hsf]
    simp only [List.length_map, List.length_range]
    show allIDs.length ≤ (allIDs.length + (5 - 1)) / 5 * 5
    omega
  · rw [hsf]
    intro b hb
    simp only [List.mem_map] at hb
    obtain ⟨i, -, rfl⟩ := hb
    exact List.length_take_le batchSize _
  · rw [hsf]
    show (allIDs.take _).findSome? setFav = allIDs.findSome? setFav
    rw [htake]

/-! ## Adapter lemmas -/

theorem foldl_pair_append {α β γ : Type} (f : α → β) (g : α → γ) (l : List α)
    (acc : List β × List γ) :
    l.foldl (fun acc a => (acc.1 ++ [f a], acc.2 ++ [g a])) acc
      = (acc.1 ++ l.map f, acc.2 ++ l.map g) := by
  induction l generalizing acc with
  | nil => simp
  | cons a l ih => simp [ih]

/-- The one-pass artist flattening returns the two lists in backend order. -/
theorem artistLists_eq (refs : List JArtistRef) :
    artistLists refs = (refs.map JArtistRef.ID, refs.map JArtistRef.Name) := by
  unfold artistLists
  rw [foldl_pair_append]
  simp

theorem trackOf_ArtistIDs (ch : JSong) :
    (trackOf ch).ArtistIDs = ch.Artists.map JArtistRef.ID := by
  cases h : ch.MediaSources <;> simp [trackOf, h, artistLists_eq]

theorem trackOf_ArtistNames (ch : JSong) :
    (trackOf ch).ArtistNames = ch.Artists.map JArtistRef.Name := by
  cases h : ch.MediaSources <;> simp [trackOf, h, artistLists_eq]

theorem trackOf_Duration (ch : JSong) :
    (trackOf ch).Duration = Int.tdiv ch.RunTimeTicks 10000000 := by
  cases h : ch.MediaSources <;> simp [trackOf, h]

theorem trackOf_Genre (ch : JSong) : (trackOf ch).Genre = [] := by
  cases h : ch.MediaSources <;> simp [trackOf, h]

/-! ## Claim theorems: record adapters -/

/-- C7 counterexample: not every adapter maps a nil input to an empty
result — toArtist dereferences its nil argument, a runtime panic. -/
theorem C7_toArtist_nil_panics : toArtist none = .error GoPanic.nilDeref := rfl

/-- C7 (amended): every adapter is total and deterministic over non-nil
records; toTrack additionally maps a nil record to a nil result, while
toArtist, toAlbum and toPlaylist have no nil check and a nil input
dereferences nil (runtime panic) instead of yielding an empty result. -/
theorem C7_adapter_totality :
    toTrack none = .ok none
    ∧ (∀ ch, toTrack (some ch) = .ok (some (trackOf ch)))
    ∧ (∀ a, toArtist (some a) = .ok (fillArtist a))
    ∧ (∀ al, toAlbum (some al) = .ok (fillAlbum al))
    ∧ (∀ u p, toPlaylist u (some p) = .ok (fillPlaylist u p))
    ∧ toArtist none = .error GoPanic.nilDeref
    ∧ toAlbum none = .error GoPanic.nilDeref
    ∧ ∀ u, toPlaylist u none = .error GoPanic.nilDeref :=
  ⟨rfl, fun _ => rfl, fun _ => rfl, fun _ => rfl, fun _ _ => rfl, rfl, rfl, fun _ => rfl⟩

/-- C8: every adapted track and album carries artist ID and artist name
lists of equal length, and position i of the two lists comes from the same
backend artist reference, in the backend's list order. -/
theorem C8_artist_lists_parallel (ch : JSong) (al : JAlbum) :
    ((trackOf ch).ArtistIDs.length = (trackOf ch).ArtistNames.length
      ∧ (trackOf ch).ArtistIDs = ch.Artists.map JArtistRef.ID
      ∧ (trackOf ch).ArtistNames = ch.Artists.map JArtistRef.Name
      ∧ ∀ i : Nat, (trackOf ch).ArtistIDs[i]? = (ch.Artists[i]?).map JArtistRef.ID
          ∧ (trackOf ch).ArtistNames[i]? = (ch.Artists[i]?).map JArtistRef.Name)
    ∧ ((fillAlbum al).ArtistIDs.length = (fillAlbum al).ArtistNames.length
      ∧ (fillAlbum al).ArtistIDs = al.Artists.map JArtistRef.ID
      ∧ (fillAlbum al).ArtistNames = al.Artists.map JArtistRef.Name
      ∧ ∀ i : Nat, (fillAlbum al).ArtistIDs[i]? = (al.Artists[i]?).map JArtistRef.ID
          ∧ (fillAlbum al).ArtistNames[i]? = (al.Artists[i]?).map JArtistRef.Name) := by
  constructor
  · refine ⟨?_, trackOf_ArtistIDs ch, trackOf_ArtistNames ch, ?_⟩
    · rw [trackOf_ArtistIDs, trackOf_ArtistNames]
      simp
    · intro i
      rw [trackOf_ArtistIDs, trackOf_ArtistNames]
      simp
  · have hids : (fillAlbum al).ArtistIDs = al.Artists.map JArtistRef.ID := by
      simp [fillAlbum, artistLists_eq]
    have hnames : (fillAlbum al).ArtistNames = al.Artists.map JArtistRef.Name := by
      simp [fillAlbum, artistLists_eq]
    refine ⟨?_, hids, hnames, ?_⟩
    · rw [hids, hnames]
      simp
    · intro i
      rw [hids, hnames]
      simp

/-- C9: the adapters convert track and album durations by dividing
RunTimeTicks (100-nanosecond ticks) by 10,000,000 and playlist durations by
dividing RunTimeTicks by 1,000,000; the two factors are applied to their
own entity kinds (123.45 seconds of 100-ns ticks becomes 123 for a track
but 1234 under the playlist conversion). -/
theorem C9_duration_conversions (ch : JSong) (al : JAlbum) (u : GoStr) (p : JPlaylist) :
    (trackOf ch).Duration = Int.tdiv ch.RunTimeTicks 10000000
    ∧ (fillAlbum al).Duration = Int.tdiv al.RunTimeTicks 10000000
    ∧ (fillPlaylist u p).Duration = Int.tdiv p.RunTimeTicks 1000000
    ∧ (trackOf { ch with RunTimeTicks := 1234500000 }).Duration = 123
    ∧ (fillAlbum { al with RunTimeTicks := 1234500000 }).Duration = 123
    ∧ (fillPlaylist u { p with RunTimeTicks := 1234500000 }).Duration = 1234 := by
  refine ⟨trackOf_Duration ch, rfl, rfl, ?_, ?_, ?_⟩
  · rw [trackOf_Duration]
    show Int.tdiv 1234500000 10000000 = 123
    decide
  · show Int.tdiv 1234500000 10000000 = 123
    decide
  · show Int.tdiv 1234500000 1000000 = 1234
    decide

/-- C10: toTrack maps every non-nil song record to a track whose Genre
field is empty (the genre assignment is commented out in the adapter), even
though the domain Track declares a Genre field and the backend record may
carry genres. -/
theorem C10_toTrack_genre_empty (ch : JSong) :
    ∃ t, toTrack (some ch) = .ok (some t) ∧ t.Genre = [] :=
  ⟨trackOf ch, rfl, trackOf_Genre ch⟩
